import Mathlib

/-!
# Verification of the automation-pipeline extraction/deduplication core

Shallow embedding of the deduplication, engine-orchestration, message
formatting, DOM text cleanup and pagination loops of the repository
(src/modules/deduplicator.py, src/modules/database.py, src/engine.py,
src/modules/telegram_sender.py, src/modules/dom_extractor.py,
src/modules/paginator.py), together with proofs of the externally
specified properties of those components.

Machine-level primitives (Python str.strip, UTF-8 encoding, MD5) are
embedded executably over Nat / List Char so that every statement can be
evaluated on concrete inputs by the kernel.
-/

set_option maxRecDepth 10000

namespace Automation

/-! ## Python string primitives -/

/-- Python ASCII whitespace as used by str.strip and the regex class \s
(space, tab, newline, carriage return, vertical tab, form feed). -/
def isPySpace (c : Char) : Bool :=
  c = ' ' || c = '\t' || c = '\n' || c = '\r' || c = '\x0b' || c = '\x0c'

/-- str.strip on a character list: drop leading and trailing whitespace. -/
def pyStripList (cs : List Char) : List Char :=
  ((cs.dropWhile isPySpace).reverse.dropWhile isPySpace).reverse

/-- Python str.strip. -/
def pyStrip (s : String) : String :=
  ⟨pyStripList s.data⟩

/-- Python str.startswith. -/
def pyStartsWith (s pre : String) : Bool :=
  pre.data.isPrefixOf s.data

/-! ## UTF-8 encoding -/

/-- UTF-8 encoding of a single Unicode code point, as a list of byte
values (each less than 256). -/
def utf8Char (n : Nat) : List Nat :=
  if n < 0x80 then [n]
  else if n < 0x800 then
    [0xC0 ||| (n >>> 6), 0x80 ||| (n &&& 0x3F)]
  else if n < 0x10000 then
    [0xE0 ||| (n >>> 12), 0x80 ||| ((n >>> 6) &&& 0x3F), 0x80 ||| (n &&& 0x3F)]
  else
    [0xF0 ||| (n >>> 18), 0x80 ||| ((n >>> 12) &&& 0x3F),
     0x80 ||| ((n >>> 6) &&& 0x3F), 0x80 ||| (n &&& 0x3F)]

/-- UTF-8 encoding of a string (Python s.encode of a str). -/
def utf8Bytes (s : String) : List Nat :=
  s.data.foldr (fun c acc => utf8Char c.toNat ++ acc) []

/-! ## MD5 (RFC 1321), embedded over Nat with explicit arithmetic mod 2^32 -/

/-- The 64 MD5 sine-derived round constants. -/
def md5K : List Nat :=
  [0xd76aa478, 0xe8c7b756, 0x242070db, 0xc1bdceee,
   0xf57c0faf, 0x4787c62a, 0xa8304613, 0xfd469501,
   0x698098d8, 0x8b44f7af, 0xffff5bb1, 0x895cd7be,
   0x6b901122, 0xfd987193, 0xa679438e, 0x49b40821,
   0xf61e2562, 0xc040b340, 0x265e5a51, 0xe9b6c7aa,
   0xd62f105d, 0x02441453, 0xd8a1e681, 0xe7d3fbc8,
   0x21e1cde6, 0xc33707d6, 0xf4d50d87, 0x455a14ed,
   0xa9e3e905, 0xfcefa3f8, 0x676f02d9, 0x8d2a4c8a,
   0xfffa3942, 0x8771f681, 0x6d9d6122, 0xfde5380c,
   0xa4beea44, 0x4bdecfa9, 0xf6bb4b60, 0xbebfbc70,
   0x289b7ec6, 0xeaa127fa, 0xd4ef3085, 0x04881d05,
   0xd9d4d039, 0xe6db99e5, 0x1fa27cf8, 0xc4ac5665,
   0xf4292244, 0x432aff97, 0xab9423a7, 0xfc93a039,
   0x655b59c3, 0x8f0ccc92, 0xffeff47d, 0x85845dd1,
   0x6fa87e4f, 0xfe2ce6e0, 0xa3014314, 0x4e0811a1,
   0xf7537e82, 0xbd3af235, 0x2ad7d2bb, 0xeb86d391]

/-- The 64 MD5 per-round left-rotation amounts. -/
def md5S : List Nat :=
  [7, 12, 17, 22, 7, 12, 17, 22, 7, 12, 17, 22, 7, 12, 17, 22,
   5, 9, 14, 20, 5, 9, 14, 20, 5, 9, 14, 20, 5, 9, 14, 20,
   4, 11, 16, 23, 4, 11, 16, 23, 4, 11, 16, 23, 4, 11, 16, 23,
   6, 10, 15, 21, 6, 10, 15, 21, 6, 10, 15, 21, 6, 10, 15, 21]

/-- 32-bit left rotation of a value below 2^32. -/
def rotl32 (x s : Nat) : Nat :=
  ((x <<< s) ||| (x >>> (32 - s))) % 4294967296

/-- Little-endian byte decomposition: k bytes of n. -/
def toLEBytes : Nat → Nat → List Nat
  | 0, _ => []
  | k + 1, n => (n % 256) :: toLEBytes k (n / 256)

/-- MD5 padding: append 0x80, zero bytes up to 56 mod 64, then the
original bit length as 8 little-endian bytes. -/
def md5Pad (msg : List Nat) : List Nat :=
  let len := msg.length
  let padLen := (119 - len % 64) % 64
  msg ++ [0x80] ++ List.replicate padLen 0 ++ toLEBytes 8 ((len * 8) % 18446744073709551616)

/-- Split a byte list into 64-byte chunks (fuel-driven so the kernel can
reduce it; call with fuel at least the list length). -/
def chunks64 : Nat → List Nat → List (List Nat)
  | 0, _ => []
  | _, [] => []
  | fuel + 1, l => l.take 64 :: chunks64 fuel (l.drop 64)

/-- The i-th little-endian 32-bit word of a 64-byte chunk. -/
def leWord (chunk : List Nat) (i : Nat) : Nat :=
  chunk.getD (4 * i) 0 + 256 * (chunk.getD (4 * i + 1) 0 +
    256 * (chunk.getD (4 * i + 2) 0 + 256 * chunk.getD (4 * i + 3) 0))

/-- The MD5 internal state: four 32-bit words. -/
structure MD5State where
  a : Nat
  b : Nat
  c : Nat
  d : Nat
deriving DecidableEq

/-- MD5 round function and message index for step i. -/
def md5F (i b c d : Nat) : Nat × Nat :=
  if i < 16 then ((b &&& c) ||| ((4294967295 ^^^ b) &&& d), i)
  else if i < 32 then ((d &&& b) ||| ((4294967295 ^^^ d) &&& c), (5 * i + 1) % 16)
  else if i < 48 then (b ^^^ c ^^^ d, (3 * i + 5) % 16)
  else (c ^^^ (b ||| (4294967295 ^^^ d)), (7 * i) % 16)

/-- Run n MD5 steps starting at step index i. -/
def md5Rounds : Nat → Nat → MD5State → (Nat → Nat) → MD5State
  | 0, _, st, _ => st
  | n + 1, i, st, m =>
    let fg := md5F i st.b st.c st.d
    let fv := (fg.1 + st.a + md5K.getD i 0 + m fg.2) % 4294967296
    let b1 := (st.b + rotl32 fv (md5S.getD i 0)) % 4294967296
    md5Rounds n (i + 1) ⟨st.d, b1, st.b, st.c⟩ m

/-- Process one 64-byte chunk. -/
def md5Chunk (st : MD5State) (chunk : List Nat) : MD5State :=
  let r := md5Rounds 64 0 st (leWord chunk)
  ⟨(st.a + r.a) % 4294967296, (st.b + r.b) % 4294967296,
   (st.c + r.c) % 4294967296, (st.d + r.d) % 4294967296⟩

/-- MD5 initial state. -/
def md5Init : MD5State :=
  ⟨0x67452301, 0xefcdab89, 0x98badcfe, 0x10325476⟩

/-- MD5 digest of a byte list, as 16 bytes. -/
def md5Bytes (msg : List Nat) : List Nat :=
  let padded := md5Pad msg
  let final := (chunks64 padded.length padded).foldl md5Chunk md5Init
  toLEBytes 4 final.a ++ toLEBytes 4 final.b ++ toLEBytes 4 final.c ++ toLEBytes 4 final.d

/-- Lower-case hex digit. -/
def hexDigit (n : Nat) : Char :=
  if n < 10 then Char.ofNat (48 + n) else Char.ofNat (87 + n)

/-- MD5 digest of a byte list as a 32-character lower-case hex string
(Python hashlib.md5(..).hexdigest()). -/
def md5Hex (msg : List Nat) : String :=
  ⟨(md5Bytes msg).foldr (fun b acc => hexDigit (b / 16) :: hexDigit (b % 16) :: acc) []⟩

/-- RFC 1321 test vector: the empty message. -/
theorem md5_vector_empty : md5Hex (utf8Bytes "") = "d41d8cd98f00b204e9800998ecf8427e" := by
  decide

/-- RFC 1321 test vector: "abc". -/
theorem md5_vector_abc : md5Hex (utf8Bytes "abc") = "900150983cd24fb0d6963f7d28e17f72" := by
  decide

/-! ## Records and content hashing (src/modules/deduplicator.py) -/

/-- A Python value as seen by the deduplicator: either None or a string
(the extractors produce string fields; str(v) of a string is itself). -/
abbrev Value := Option String

/-- An extracted record: a Python dict of field name to value, embedded
as an association list in insertion order (keys of a dict are unique;
theorems that depend on uniqueness state it explicitly). -/
abbrev Record := List (String × Value)

/-- Python truthiness of a deduplicator value (None and the empty string
are falsy). -/
def pyTruthy (v : Value) : Bool :=
  match v with
  | none => false
  | some s => s ≠ ""

/-- The clean_data comprehension of Deduplicator.generate_hash: keep
pairs whose value is not None, whose stripped string form is non-empty
and whose key does not start with the metadata prefix, mapping each kept
value to its stripped form. -/
def cleanData (data : Record) : List (String × String) :=
  data.filterMap fun kv =>
    match kv.2 with
    | none => none
    | some s =>
      let s1 := pyStrip s
      if s1 = "" then none
      else if pyStartsWith kv.1 "_" then none
      else some (kv.1, s1)

/-- Python string comparison on character lists: lexicographic by
Unicode code point, a proper prefix is smaller. -/
def strLtList : List Char → List Char → Bool
  | [], [] => false
  | [], _ :: _ => true
  | _ :: _, [] => false
  | a :: as, b :: bs =>
    if a.toNat < b.toNat then true
    else if b.toNat < a.toNat then false
    else strLtList as bs

/-- Python string less-than. -/
def strLt (a b : String) : Bool :=
  strLtList a.data b.data

theorem charToNat_inj {a b : Char} (h : a.toNat = b.toNat) : a = b :=
  Char.eq_of_val_eq (UInt32.ext h)

theorem strLtList_irrefl : ∀ l, strLtList l l = false
  | [] => rfl
  | c :: cs => by
    simp only [strLtList, lt_irrefl, if_false]
    exact strLtList_irrefl cs

theorem strLtList_trans : ∀ (a b c : List Char), strLtList a b = true →
    strLtList b c = true → strLtList a c = true
  | [], _ :: _, _ :: _, _, _ => rfl
  | [], [], _, hab, _ => by simp [strLtList] at hab
  | [], _ :: _, [], _, hbc => by simp [strLtList] at hbc
  | _ :: _, [], _, hab, _ => by simp [strLtList] at hab
  | _ :: _, _ :: _, [], _, hbc => by simp [strLtList] at hbc
  | x :: as, y :: bs, z :: cs, hab, hbc => by
    simp only [strLtList] at hab hbc ⊢
    split_ifs at hab hbc ⊢ <;>
      first
      | rfl
      | (exfalso; omega)
      | exact strLtList_trans as bs cs hab hbc

theorem strLtList_connex : ∀ (a b : List Char), strLtList a b = false →
    strLtList b a = false → a = b
  | [], [], _, _ => rfl
  | [], _ :: _, hab, _ => by simp [strLtList] at hab
  | _ :: _, [], _, hba => by simp [strLtList] at hba
  | x :: as, y :: bs, hab, hba => by
    simp only [strLtList] at hab hba
    split_ifs at hab hba
    have hxy : x = y := charToNat_inj (by omega)
    have htl : as = bs := strLtList_connex as bs hab hba
    rw [hxy, htl]

theorem strLt_asymm {a b : String} (h : strLt a b = true) : strLt b a = false := by
  by_contra hc
  have h2 : strLt b a = true := by
    revert hc
    cases strLt b a <;> simp
  have h3 := strLtList_trans _ _ _ h h2
  rw [strLtList_irrefl] at h3
  exact Bool.false_ne_true h3

theorem strLt_connex {a b : String} (hab : strLt a b = false)
    (hba : strLt b a = false) : a = b := by
  cases a with
  | mk da =>
    cases b with
    | mk db =>
      have := strLtList_connex da db hab hba
      rw [this]

/-- The comparison Python's sorted uses on (key, value) string pairs:
lexicographic tuple comparison, first by key then by value (v1 is less
or equal to v2 exactly when v2 is not less than v1). -/
def pairLeB (a b : String × String) : Bool :=
  strLt a.1 b.1 || (decide (a.1 = b.1) && !strLt b.2 a.2)

/-- pairLeB as a relation, for the sorting lemmas. -/
def pairLe (a b : String × String) : Prop :=
  pairLeB a b = true

instance : DecidableRel pairLe := fun a b => by
  unfold pairLe
  infer_instance

theorem pairLe_iff {a b : String × String} :
    pairLe a b ↔ strLt a.1 b.1 = true ∨ (a.1 = b.1 ∧ strLt b.2 a.2 = false) := by
  unfold pairLe pairLeB
  cases h1 : strLt a.1 b.1 <;> cases h2 : strLt b.2 a.2 <;> simp

instance : IsTotal (String × String) pairLe := by
  constructor
  intro a b
  cases h1 : strLt a.1 b.1 with
  | true => exact Or.inl (pairLe_iff.mpr (Or.inl h1))
  | false =>
    cases h2 : strLt b.1 a.1 with
    | true => exact Or.inr (pairLe_iff.mpr (Or.inl h2))
    | false =>
      have hk : a.1 = b.1 := strLt_connex h1 h2
      cases h3 : strLt b.2 a.2 with
      | false => exact Or.inl (pairLe_iff.mpr (Or.inr ⟨hk, h3⟩))
      | true => exact Or.inr (pairLe_iff.mpr (Or.inr ⟨hk.symm, strLt_asymm h3⟩))

theorem strLt_trans {a b c : String} (h1 : strLt a b = true)
    (h2 : strLt b c = true) : strLt a c = true :=
  strLtList_trans _ _ _ h1 h2

theorem strLt_irrefl (a : String) : strLt a a = false :=
  strLtList_irrefl _

theorem strNotLt_trans {x y z : String} (h1 : strLt y x = false)
    (h2 : strLt z y = false) : strLt z x = false := by
  cases hzx : strLt z x
  · rfl
  · exfalso
    cases hxy : strLt x y
    · have hxy2 : x = y := strLt_connex hxy h1
      rw [← hxy2] at h2
      rw [hzx] at h2
      simp at h2
    · have h3 : strLt z y = true := strLt_trans hzx hxy
      rw [h3] at h2
      simp at h2

instance : IsTrans (String × String) pairLe := by
  constructor
  intro a b c hab hbc
  rw [pairLe_iff] at hab hbc ⊢
  rcases hab with h1 | ⟨h1, h2⟩ <;> rcases hbc with h3 | ⟨h3, h4⟩
  · exact Or.inl (strLt_trans h1 h3)
  · exact Or.inl (h3 ▸ h1)
  · exact Or.inl (h1 ▸ h3)
  · exact Or.inr ⟨h1.trans h3, strNotLt_trans h2 h4⟩

instance : IsAntisymm (String × String) pairLe := by
  constructor
  rintro ⟨k1, v1⟩ ⟨k2, v2⟩ hab hba
  rw [pairLe_iff] at hab hba
  rcases hab with h1 | ⟨h1, h2⟩ <;> rcases hba with h3 | ⟨h3, h4⟩
  · exact absurd h3 (by rw [strLt_asymm h1]; simp)
  · exact absurd h1 (by rw [h3, strLt_irrefl]; simp)
  · exact absurd h3 (by rw [h1, strLt_irrefl]; simp)
  · simp only [Prod.mk.injEq]
    exact ⟨h1, strLt_connex h4 h2⟩

/-- sorted(clean_data.items()): sort the key/value pairs. -/
def sortedItems (l : List (String × String)) : List (String × String) :=
  l.insertionSort pairLe

/-- The joined "key:value" content string with separator bar. -/
def contentString (l : List (String × String)) : String :=
  String.intercalate "|" (l.map fun kv => kv.1 ++ ":" ++ kv.2)

/-- Deduplicator.generate_hash: filter and strip the fields, hash the
sentinel when nothing survives, otherwise hash the sorted, joined
content string (MD5 hex digest of its UTF-8 encoding). -/
def generate_hash (data : Record) : String :=
  let clean := cleanData data
  if clean = [] then md5Hex (utf8Bytes "empty")
  else md5Hex (utf8Bytes (contentString (sortedItems clean)))

/-- Sanity check against the repository's dedup test suite: the hash of
the GOOGL record is the MD5 of "price:142.25|symbol:GOOGL". -/
theorem generate_hash_googl :
    generate_hash [("symbol", some "GOOGL"), ("price", some "142.25")]
      = "d69f87e019973340a3f615df6f20d0b7" := by
  decide

theorem sortedItems_perm_eq {l l' : List (String × String)} (h : l.Perm l') :
    sortedItems l = sortedItems l' := by
  refine List.eq_of_perm_of_sorted ?_ (List.sorted_insertionSort pairLe l)
    (List.sorted_insertionSort pairLe l')
  exact (List.perm_insertionSort pairLe l).trans
    (h.trans (List.perm_insertionSort pairLe l').symm)

/-- Hash determinism under reordering of the key-value pairs. -/
theorem generate_hash_perm {d d' : Record} (h : d.Perm d') :
    generate_hash d = generate_hash d' := by
  have hc : (cleanData d).Perm (cleanData d') := h.filterMap _
  unfold generate_hash
  by_cases he : cleanData d = []
  · have he' : cleanData d' = [] := ((he ▸ hc).symm).eq_nil
    simp [he, he']
  · have he' : cleanData d' ≠ [] := fun h0 => he ((h0 ▸ hc).eq_nil)
    simp [he, he', sortedItems_perm_eq hc]

/-! ## Persistence layer (src/modules/database.py)

The extracted_data table carries a UNIQUE(job_id, hash) constraint
(init_db.py); the deduplication logic reads and writes only the
(job_id, hash) projection of that table, which is what the embedding
keeps, together with the autoincrement rowid counter. -/

/-- The (job_id, hash) projection of the extracted_data table. -/
structure Database where
  rows : List (Nat × String)
  nextId : Nat
deriving DecidableEq

/-- Database.is_duplicate: SELECT 1 FROM extracted_data WHERE job_id = ?
AND hash = ? LIMIT 1. -/
def Database.is_duplicate (db : Database) (jobId : Nat) (dataHash : String) : Bool :=
  decide ((jobId, dataHash) ∈ db.rows)

/-- Database.store_extracted_data: INSERT the row and return its id, or
return -1 on the UNIQUE(job_id, hash) IntegrityError. The stored data
payload, page number and scroll position do not affect deduplication and
are not part of the projection. -/
def Database.store_extracted_data (db : Database) (jobId : Nat) (dataHash : String) :
    Int × Database :=
  if (jobId, dataHash) ∈ db.rows then (-1, db)
  else (Int.ofNat db.nextId, ⟨(jobId, dataHash) :: db.rows, db.nextId + 1⟩)

/-! ## Deduplicator classification (src/modules/deduplicator.py) -/

/-- The result dict of Deduplicator.process_item. -/
structure DedupResult where
  is_new : Bool
  hash : String
  should_send : Bool
  data : Record
deriving DecidableEq

/-- Deduplicator.process_item: hash the record, look the hash up for the
job, and report the classification. The database is threaded through to
make the absence of writes expressible; the lookup is a read. -/
def process_item (db : Database) (jobId : Nat) (extractedData : Record) :
    DedupResult × Database :=
  let dataHash := generate_hash extractedData
  let isDup := db.is_duplicate jobId dataHash
  ({ is_new := !isDup, hash := dataHash, should_send := !isDup,
     data := extractedData }, db)

/-- Deduplicator.store_and_mark: return -1 without storing for a
duplicate result, otherwise store the row. -/
def store_and_mark (db : Database) (jobId : Nat) (result : DedupResult) :
    Int × Database :=
  if !result.is_new then (-1, db)
  else db.store_extracted_data jobId result.hash

/-! ## Engine: DOM job execution (src/engine.py, _execute_dom_job)

The embedding keeps the parts of the run that decide the externally
visible outcome: the zero-item validation, the per-item loop
(empty-item skip, deduplication, storage, Telegram send counting) and
the two complete_execution_log call sites with their Python default
arguments. Browser navigation, progress updates and message bodies do
not influence counts or status and are abstracted; a runtime exception
raised while processing item i (for example a database error) is
modelled by the failAt oracle, and the success of the i-th Telegram
send by the sendOk oracle. -/

/-- A finalized execution_log row (the fields complete_execution_log
writes). -/
structure ExecLog where
  status : String
  pages_processed : Nat
  items_extracted : Nat
  items_new : Nat
  items_duplicate : Nat
  items_sent : Nat
  error_message : Option String
deriving DecidableEq

/-- Database.complete_execution_log, fully applied; Python gives every
count the default 0 and every message the default None, so a call site
that omits an argument passes that default here. -/
def complete_execution_log (status : String) (pages_processed : Nat)
    (items_extracted : Nat) (items_new : Nat)
    (items_duplicate : Nat) (items_sent : Nat)
    (error_message : Option String) : ExecLog :=
  ⟨status, pages_processed, items_extracted, items_new, items_duplicate,
   items_sent, error_message⟩

/-- The job configuration fields the DOM loop reads. -/
structure JobConfig where
  enable_deduplication : Bool
  telegram : Bool
  format_template : Option String

/-- The engine's empty-data-point skip: not data or all(not v for v in
data.values()). -/
def isSkippedItem (data : Record) : Bool :=
  data.isEmpty || data.all fun kv => !pyTruthy kv.2

/-- The per-item processing loop of _execute_dom_job. On a raised
exception the loop exits carrying the database state already committed
and the counter values the locals held at that point (the except handler
below ignores the counters). Returns the database and the new, duplicate
and sent counters. -/
def domProcessLoop (jobId : Nat) (cfg : JobConfig) (sendOk : Nat → Bool)
    (failAt : Option Nat) :
    List Record → Nat → Database → Nat → Nat → Nat →
    Except (String × Database × Nat × Nat × Nat) (Database × Nat × Nat × Nat)
  | [], _, db, n, d, s => .ok (db, n, d, s)
  | data :: rest, i, db, n, d, s =>
    if failAt = some i then .error ("processing error", db, n, d, s)
    else if isSkippedItem data then
      domProcessLoop jobId cfg sendOk failAt rest (i + 1) db n d s
    else if cfg.enable_deduplication then
      let r := process_item db jobId data
      if !r.1.is_new then
        domProcessLoop jobId cfg sendOk failAt rest (i + 1) r.2 n (d + 1) s
      else
        let st := store_and_mark r.2 jobId r.1
        let s1 := if cfg.telegram && cfg.format_template.isSome then
            (if sendOk i then s + 1 else s) else s
        domProcessLoop jobId cfg sendOk failAt rest (i + 1) st.2 (n + 1) d s1
    else
      let st := db.store_extracted_data jobId (generate_hash data)
      let s1 := if cfg.telegram && cfg.format_template.isSome then
          (if sendOk i then s + 1 else s) else s
      domProcessLoop jobId cfg sendOk failAt rest (i + 1) st.2 (n + 1) d s1

/-- _execute_dom_job, from extraction result to finalized log. With zero
extracted items the log is first completed as failed with explicit zero
counts, then the raised RuntimeError reaches the outer except handler
which completes the log again (last write wins) with only status and
error message — every other field takes its Python default. A loop
exception likewise reaches the outer handler. A completed loop finalizes
the log as success with the accumulated counts. -/
def execDomJob (db : Database) (jobId : Nat) (cfg : JobConfig)
    (items : List Record) (sendOk : Nat → Bool) (failAt : Option Nat) :
    Database × ExecLog :=
  if items.length = 0 then
    (db, complete_execution_log "failed" 0 0 0 0 0
      (some "Extraction validation failed: 0 items extracted"))
  else
    match domProcessLoop jobId cfg sendOk failAt items 0 db 0 0 0 with
    | .error (msg, db1, _, _, _) =>
      (db1, complete_execution_log "failed" 0 0 0 0 0 (some msg))
    | .ok (db1, n, d, s) =>
      (db1, complete_execution_log "success" 1 items.length n d s none)

/-! ## Message formatting (src/modules/telegram_sender.py, MessageFormatter) -/

/-- Does pat occur as a contiguous run inside s? -/
def isInfixList : List Char → List Char → Bool
  | pat, [] => pat.isEmpty
  | pat, c :: rest => pat.isPrefixOf (c :: rest) || isInfixList pat rest

/-- Python substring containment (the in operator on str). -/
def strContains (s pat : String) : Bool :=
  isInfixList pat.data s.data

/-- Python str.replace on character lists: replace every non-overlapping
occurrence of pat left to right, skipping past each replacement. The
fuel argument (at least the list length suffices; patterns here are
never empty) makes the definition structurally recursive. -/
def replaceAux : Nat → List Char → List Char → List Char → List Char
  | 0, cs, _, _ => cs
  | _, [], _, _ => []
  | fuel + 1, c :: rest, pat, rep =>
    if pat.isPrefixOf (c :: rest) then
      rep ++ replaceAux fuel ((c :: rest).drop pat.length) pat rep
    else c :: replaceAux fuel rest pat rep

/-- Python str.replace. -/
def strReplace (s pat rep : String) : String :=
  ⟨replaceAux s.data.length s.data pat.data rep.data⟩

/-- MessageFormatter.format_message: fold over the data fields in dict
(insertion) order; skip metadata fields; for each remaining field whose
brace-delimited placeholder occurs in the current message, replace every
occurrence of the placeholder with the field value. -/
def format_message (data : List (String × String)) (template : String) : String :=
  data.foldl (fun message kv =>
    if pyStartsWith kv.1 "_" then message
    else
      let placeholder := "\x7b" ++ kv.1 ++ "\x7d"
      if strContains message placeholder then strReplace message placeholder kv.2
      else message) template

/-! ## DOM text deduplication (src/modules/dom_extractor.py, _deduplicate_text) -/

/-- re.split of the pattern "two or more whitespace, or a newline":
scanning left to right, a maximal whitespace run of length at least two
is a separator, a lone newline is a separator, any other single
whitespace character stays in the surrounding part. Fuel-driven; fuel at
least the list length suffices. -/
def reSplitWs : Nat → List Char → List (List Char)
  | 0, cs => [cs]
  | _, [] => [[]]
  | fuel + 1, c :: rest =>
    if isPySpace c then
      let runLen := 1 + (rest.takeWhile isPySpace).length
      if 2 ≤ runLen then [] :: reSplitWs fuel (rest.drop (runLen - 1))
      else if c = '\n' then [] :: reSplitWs fuel rest
      else
        match reSplitWs fuel rest with
        | [] => [[c]]
        | p :: ps => (c :: p) :: ps
    else
      match reSplitWs fuel rest with
      | [] => [[c]]
      | p :: ps => (c :: p) :: ps

/-- Method 4 of _deduplicate_text: try split points around the middle
(offsets -5 to 5), skipping points closer than 5 characters to either
end, and collapse when the stripped sides agree. -/
def method4 (v : List Char) (halfLen : Nat) : Option (List Char) :=
  (List.range 11).findSome? fun j =>
    let sp : Int := (halfLen : Int) + (j : Int) - 5
    if sp < 5 ∨ (v.length : Int) - 5 ≤ sp then none
    else
      let spn := sp.toNat
      let left := pyStripList (v.take spn)
      let right := pyStripList (v.drop spn)
      if left = right then some left else none

/-- Method 5 of _deduplicate_text: look for a repeating leading pattern
of length 10 up to half the string. -/
def method5 (v : List Char) : Option (List Char) :=
  (List.range (v.length / 2 + 1)).findSome? fun i =>
    if i < 10 then none
    else
      let pattern := v.take i
      let remaining := pyStripList (v.drop i)
      if remaining = pattern ∨ (pattern ++ [' ']).isPrefixOf remaining = true
          ∨ pattern.isPrefixOf remaining = true then
        if pyStripList pattern = pyStripList ((pyStripList remaining).take pattern.length) then
          some (pyStripList pattern)
        else none
      else none

/-- DOMExtractor._deduplicate_text: strings that are falsy or shorter
than 10 characters are returned unchanged; otherwise the input is
stripped and five collapse heuristics run in order (exact halves, a
two-part whitespace split, a second half starting with the first half's
prefix, split points near the middle, a repeating leading pattern); when
none applies the stripped value is returned. -/
def deduplicate_text (value : String) : String :=
  if value = "" ∨ value.length < 10 then value
  else
    let v := pyStripList value.data
    let halfLen := v.length / 2
    let firstHalf := pyStripList (v.take halfLen)
    let secondHalf := pyStripList (v.drop halfLen)
    if firstHalf = secondHalf then ⟨firstHalf⟩
    else
      let parts := ((reSplitWs v.length v).map pyStripList).filter fun p => !p.isEmpty
      let m2 : Option (List Char) :=
        match parts with
        | [p1, p2] => if p1 = p2 then some p1 else none
        | _ => none
      match m2 with
      | some p => ⟨p⟩
      | none =>
        if decide (10 < firstHalf.length) && (firstHalf.take 20).isPrefixOf secondHalf then
          ⟨firstHalf⟩
        else
          match method4 v halfLen with
          | some l => ⟨l⟩
          | none =>
            match method5 v with
            | some l => ⟨l⟩
            | none => ⟨v⟩

/-! ## Pagination loops (src/modules/paginator.py)

The loops are embedded by their control flow: each iteration captures a
screenshot and appends exactly one extracted data dict, so the item
count equals the number of iterations entered. The outcome of the
_images_similar comparison at each step (including its except branch)
is an oracle, as is the outcome of the next-button search. -/

/-- _images_similar: the try block computes the similarity verdict; any
exception while comparing yields False (treated as not similar). -/
def imagesSimilarResult (comparison : Except String Bool) : Bool :=
  match comparison with
  | .ok similar => similar
  | .error _ => false

/-- The while loop of Paginator.scroll_and_extract: remaining is
max_scrolls minus scroll_count; simAt k tells whether the similarity
check at iteration k succeeded; three consecutive similar captures break
the loop. Returns the number of data points collected. -/
def scrollLoop (simAt : Nat → Bool) : Nat → Nat → Nat → Nat → Bool → Nat
  | 0, _, _, items, _ => items
  | remaining + 1, sc, consecutive, items, hasPrev =>
    let items1 := items + 1
    if hasPrev && simAt sc then
      if 3 ≤ consecutive + 1 then items1
      else scrollLoop simAt remaining (sc + 1) (consecutive + 1) items1 true
    else scrollLoop simAt remaining (sc + 1) 0 items1 true

/-- Paginator.scroll_and_extract, projected to its collected item count. -/
def scroll_and_extract_count (maxScrolls : Nat) (simAt : Nat → Bool) : Nat :=
  scrollLoop simAt maxScrolls 0 0 0 false

/-- The while loop of Paginator.paginate_and_extract: remaining is
max_pages + 1 minus page_num; btnFound k tells whether the next button
was found on page k, simAt k whether the page was unchanged after the
click. Returns the number of data points collected. -/
def pageLoop (btnFound simAt : Nat → Bool) : Nat → Nat → Nat → Nat → Nat
  | 0, _, _, items => items
  | remaining + 1, page, consecutive, items =>
    let items1 := items + 1
    if !btnFound page then items1
    else if simAt page then
      if 3 ≤ consecutive + 1 then items1
      else pageLoop btnFound simAt remaining (page + 1) (consecutive + 1) items1
    else pageLoop btnFound simAt remaining (page + 1) 0 items1

/-- Paginator.paginate_and_extract, projected to its collected item
count. -/
def paginate_and_extract_count (maxPages : Nat) (btnFound simAt : Nat → Bool) : Nat :=
  pageLoop btnFound simAt maxPages 1 0 0

/-! ## Lemmas about the deduplication loop -/

theorem process_item_is_new (db : Database) (jobId : Nat) (r : Record) :
    (process_item db jobId r).1.is_new = !decide ((jobId, generate_hash r) ∈ db.rows) :=
  rfl

theorem process_item_db (db : Database) (jobId : Nat) (r : Record) :
    (process_item db jobId r).2 = db :=
  rfl

theorem store_and_mark_dup {db : Database} {jobId : Nat} {res : DedupResult}
    (h : res.is_new = false) : store_and_mark db jobId res = (-1, db) := by
  simp [store_and_mark, h]

theorem store_and_mark_of_new {db : Database} {jobId : Nat} {r : Record}
    (hm : (jobId, generate_hash r) ∉ db.rows) :
    (store_and_mark db jobId (process_item db jobId r).1).2
      = ⟨(jobId, generate_hash r) :: db.rows, db.nextId + 1⟩ := by
  simp [process_item, store_and_mark, Database.is_duplicate,
    Database.store_extracted_data, hm]

theorem store_and_mark_rows (db : Database) (jobId : Nat) (r : Record) :
    ∀ p ∈ db.rows, p ∈ (store_and_mark db jobId (process_item db jobId r).1).2.rows := by
  intro p hp
  by_cases hm : (jobId, generate_hash r) ∈ db.rows
  · have hd : (process_item db jobId r).1.is_new = false := by
      simp [process_item, Database.is_duplicate, hm]
    rw [store_and_mark_dup hd]
    exact hp
  · rw [store_and_mark_of_new hm]
    exact List.mem_cons_of_mem _ hp

/-- A run of the loop without an injected failure always completes. -/
theorem domLoop_none_ok (jobId : Nat) (cfg : JobConfig) (sendOk : Nat → Bool) :
    ∀ (items : List Record) (i : Nat) (db : Database) (n d s : Nat),
      ∃ out, domProcessLoop jobId cfg sendOk none items i db n d s = .ok out
  | [], i, db, n, d, s => ⟨(db, n, d, s), rfl⟩
  | data :: rest, i, db, n, d, s => by
    simp only [domProcessLoop, reduceCtorEq, if_false]
    split_ifs <;> exact domLoop_none_ok jobId cfg sendOk rest (i + 1) _ _ _ _

/-- Monotonicity and coverage of a completed deduplicating loop run: the
stored rows only grow, and afterwards every non-skipped item's hash is
present for the job. -/
theorem domLoop_covers (jobId : Nat) (cfg : JobConfig) (sendOk : Nat → Bool)
    (hded : cfg.enable_deduplication = true) :
    ∀ (items : List Record) (i : Nat) (db : Database) (n d s : Nat)
      (db1 : Database) (n1 d1 s1 : Nat),
      domProcessLoop jobId cfg sendOk none items i db n d s = .ok (db1, n1, d1, s1) →
      (∀ p ∈ db.rows, p ∈ db1.rows) ∧
      (∀ r ∈ items, isSkippedItem r = false → (jobId, generate_hash r) ∈ db1.rows)
  | [], i, db, n, d, s, db1, n1, d1, s1 => by
    intro h
    simp only [domProcessLoop, Except.ok.injEq, Prod.mk.injEq] at h
    obtain ⟨h1, -, -, -⟩ := h
    subst h1
    exact ⟨fun p hp => hp, by simp⟩
  | data :: rest, i, db, n, d, s, db1, n1, d1, s1 => by
    intro h
    simp only [domProcessLoop, reduceCtorEq, if_false, hded, if_true] at h
    by_cases hsk : isSkippedItem data = true
    · rw [if_pos hsk] at h
      obtain ⟨hmono, hcov⟩ :=
        domLoop_covers jobId cfg sendOk hded rest (i + 1) db n d s db1 n1 d1 s1 h
      refine ⟨hmono, ?_⟩
      intro r hr hrs
      rcases List.mem_cons.mp hr with rfl | hr2
      · rw [hsk] at hrs
        simp at hrs
      · exact hcov r hr2 hrs
    · rw [if_neg hsk] at h
      by_cases hm : (jobId, generate_hash data) ∈ db.rows
      · have hd : (!(process_item db jobId data).1.is_new) = true := by
          simp [process_item, Database.is_duplicate, hm]
        rw [if_pos hd, process_item_db] at h
        obtain ⟨hmono, hcov⟩ :=
          domLoop_covers jobId cfg sendOk hded rest (i + 1) db n (d + 1) s db1 n1 d1 s1 h
        refine ⟨hmono, ?_⟩
        intro r hr hrs
        rcases List.mem_cons.mp hr with rfl | hr2
        · exact hmono _ hm
        · exact hcov r hr2 hrs
      · have hd : (!(process_item db jobId data).1.is_new) = false := by
          simp [process_item, Database.is_duplicate, hm]
        rw [if_neg (by rw [hd]; exact Bool.false_ne_true), process_item_db,
          store_and_mark_of_new hm] at h
        obtain ⟨hmono, hcov⟩ :=
          domLoop_covers jobId cfg sendOk hded rest (i + 1)
            ⟨(jobId, generate_hash data) :: db.rows, db.nextId + 1⟩ (n + 1) d _ db1 n1 d1 s1 h
        refine ⟨fun p hp => hmono p (List.mem_cons_of_mem _ hp), ?_⟩
        intro r hr hrs
        rcases List.mem_cons.mp hr with rfl | hr2
        · exact hmono _ (List.mem_cons_self _ _)
        · exact hcov r hr2 hrs

/-- A deduplicating loop run over items whose hashes are all already
present stores nothing and counts every non-skipped item as a
duplicate. -/
theorem domLoop_alldup (jobId : Nat) (cfg : JobConfig) (sendOk : Nat → Bool)
    (hded : cfg.enable_deduplication = true) :
    ∀ (items : List Record) (i : Nat) (db : Database) (n d s : Nat),
      (∀ r ∈ items, isSkippedItem r = false → (jobId, generate_hash r) ∈ db.rows) →
      domProcessLoop jobId cfg sendOk none items i db n d s
        = .ok (db, n, d + (items.filter fun r => !isSkippedItem r).length, s)
  | [], i, db, n, d, s => by
    intro _
    simp [domProcessLoop]
  | data :: rest, i, db, n, d, s => by
    intro hall
    simp only [domProcessLoop, reduceCtorEq, if_false, hded, if_true]
    by_cases hsk : isSkippedItem data = true
    · rw [if_pos hsk,
        domLoop_alldup jobId cfg sendOk hded rest (i + 1) db n d s
          (fun r hr => hall r (List.mem_cons_of_mem _ hr))]
      simp [List.filter_cons, hsk]
    · have hm : (jobId, generate_hash data) ∈ db.rows :=
        hall data (List.mem_cons_self _ _) (by simpa using hsk)
      have hd : (!(process_item db jobId data).1.is_new) = true := by
        simp [process_item, Database.is_duplicate, hm]
      rw [if_neg hsk, if_pos hd, process_item_db,
        domLoop_alldup jobId cfg sendOk hded rest (i + 1) db n (d + 1) s
          (fun r hr => hall r (List.mem_cons_of_mem _ hr))]
      have hsk2 : (!isSkippedItem data) = true := by simpa using hsk
      simp only [List.filter_cons, hsk2, if_true, List.length_cons]
      have harith : d + 1 + (rest.filter fun r => !isSkippedItem r).length
          = d + ((rest.filter fun r => !isSkippedItem r).length + 1) := by
        omega
      rw [harith]

/-- Every failed finalized DOM-job log carries only the Python default
counts (all zero) and a non-null error message. -/
theorem execDomJob_failed_shape (db : Database) (jobId : Nat) (cfg : JobConfig)
    (items : List Record) (sendOk : Nat → Bool) (failAt : Option Nat)
    (h : (execDomJob db jobId cfg items sendOk failAt).2.status = "failed") :
    (execDomJob db jobId cfg items sendOk failAt).2.items_extracted = 0
    ∧ (execDomJob db jobId cfg items sendOk failAt).2.items_new = 0
    ∧ (execDomJob db jobId cfg items sendOk failAt).2.items_duplicate = 0
    ∧ (execDomJob db jobId cfg items sendOk failAt).2.items_sent = 0
    ∧ (execDomJob db jobId cfg items sendOk failAt).2.error_message ≠ none := by
  unfold execDomJob at *
  by_cases hlen : items.length = 0
  · rw [if_pos hlen] at *
    simp [complete_execution_log]
  · rw [if_neg hlen] at *
    rcases hloop : domProcessLoop jobId cfg sendOk failAt items 0 db 0 0 0 with
      e | ok
    · obtain ⟨msg, db1, n, d, s⟩ := e
      rw [hloop] at *
      simp [complete_execution_log]
    · obtain ⟨db1, n, d, s⟩ := ok
      rw [hloop] at h
      simp [complete_execution_log] at h

/-! ## Lemmas for hash stripping invariance -/

theorem cleanData_append (l1 l2 : Record) :
    cleanData (l1 ++ l2) = cleanData l1 ++ cleanData l2 := by
  simp [cleanData, List.filterMap_append]

theorem cleanData_drop_none (k : String) (post : Record) :
    cleanData ((k, none) :: post) = cleanData post := by
  simp [cleanData, List.filterMap_cons]

theorem cleanData_drop_blank {s : String} (hs : pyStrip s = "") (k : String)
    (post : Record) : cleanData ((k, some s) :: post) = cleanData post := by
  simp [cleanData, List.filterMap_cons, hs]

theorem cleanData_drop_meta {k : String} (hk : pyStartsWith k "_" = true)
    (v : Value) (post : Record) : cleanData ((k, v) :: post) = cleanData post := by
  cases v with
  | none => simp [cleanData, List.filterMap_cons]
  | some s =>
    simp only [cleanData, List.filterMap_cons]
    by_cases hs : pyStrip s = ""
    · simp [hs]
    · simp [cleanData, hs, hk]

theorem generate_hash_congr {d d2 : Record} (h : cleanData d = cleanData d2) :
    generate_hash d = generate_hash d2 := by
  unfold generate_hash
  rw [h]

/-! ## Lemmas for the formatter and the pagination loops -/

theorem format_message_cons (kv : String × String) (rest : List (String × String))
    (template : String) :
    format_message (kv :: rest) template
      = format_message rest
          (if pyStartsWith kv.1 "_" then template
           else if strContains template ("\x7b" ++ kv.1 ++ "\x7d") then
             strReplace template ("\x7b" ++ kv.1 ++ "\x7d") kv.2
           else template) :=
  rfl

theorem scrollLoop_le (simAt : Nat → Bool) :
    ∀ (remaining sc c items : Nat) (hasPrev : Bool),
      scrollLoop simAt remaining sc c items hasPrev ≤ items + remaining
  | 0, _, _, _, _ => by simp [scrollLoop]
  | remaining + 1, sc, c, items, hasPrev => by
    simp only [scrollLoop]
    split_ifs
    · omega
    · have h := scrollLoop_le simAt remaining (sc + 1) (c + 1) (items + 1) true
      omega
    · have h := scrollLoop_le simAt remaining (sc + 1) 0 (items + 1) true
      omega

theorem pageLoop_le (btnFound simAt : Nat → Bool) :
    ∀ (remaining page c items : Nat),
      pageLoop btnFound simAt remaining page c items ≤ items + remaining
  | 0, _, _, _ => by simp [pageLoop]
  | remaining + 1, page, c, items => by
    simp only [pageLoop]
    split_ifs
    · omega
    · omega
    · have h := pageLoop_le btnFound simAt remaining (page + 1) (c + 1) (items + 1)
      omega
    · have h := pageLoop_le btnFound simAt remaining (page + 1) 0 (items + 1)
      omega

/-! ## The claims -/

/-- C1. Pipeline idempotence: running the DOM pipeline twice over the
same extracted items (the data source unchanged), with the first run's
database state carried into the second, finalizes the second run with
zero new items; the first run's new count is some N at least 0. -/
theorem C1_pipeline_idempotence (db : Database) (jobId : Nat) (cfg : JobConfig)
    (items : List Record) (sendOk sendOk2 : Nat → Bool)
    (hded : cfg.enable_deduplication = true) :
    0 ≤ (execDomJob db jobId cfg items sendOk none).2.items_new
    ∧ (execDomJob (execDomJob db jobId cfg items sendOk none).1 jobId cfg items
        sendOk2 none).2.items_new = 0 := by
  refine ⟨Nat.zero_le _, ?_⟩
  by_cases hlen : items.length = 0
  · simp [execDomJob, hlen, complete_execution_log]
  · obtain ⟨⟨db1, n, d, s⟩, hloop⟩ := domLoop_none_ok jobId cfg sendOk items 0 db 0 0 0
    obtain ⟨-, hcov⟩ := domLoop_covers jobId cfg sendOk hded items 0 db 0 0 0 db1 n d s hloop
    have hrun1 : (execDomJob db jobId cfg items sendOk none).1 = db1 := by
      simp [execDomJob, hlen, hloop]
    rw [hrun1]
    have hloop2 := domLoop_alldup jobId cfg sendOk2 hded items 0 db1 0 0 0 hcov
    simp [execDomJob, hlen, hloop2, complete_execution_log]

theorem C1_pipeline_idempotence_witness :
    (⟨true, false, none⟩ : JobConfig).enable_deduplication = true
    ∧ (execDomJob (execDomJob ⟨[], 1⟩ 5 ⟨true, false, none⟩ [[("a", some "x")]]
          (fun _ => true) none).1 5 ⟨true, false, none⟩ [[("a", some "x")]]
        (fun _ => true) none).2.items_new = 0 :=
  ⟨rfl, (C1_pipeline_idempotence ⟨[], 1⟩ 5 ⟨true, false, none⟩ [[("a", some "x")]]
    (fun _ => true) (fun _ => true) rfl).2⟩

/-- C2. Hash determinism under key reordering: any permutation of a
record's key-value pairs yields the same content hash. -/
theorem C2_hash_key_permutation (d d2 : Record) (h : d.Perm d2) :
    generate_hash d = generate_hash d2 :=
  generate_hash_perm h

theorem C2_hash_key_permutation_witness :
    ([("symbol", some "AAPL"), ("price", some "175.50")] : Record).Perm
      [("price", some "175.50"), ("symbol", some "AAPL")]
    ∧ generate_hash [("symbol", some "AAPL"), ("price", some "175.50")]
        = generate_hash [("price", some "175.50"), ("symbol", some "AAPL")] :=
  ⟨by decide, C2_hash_key_permutation _ _ (by decide)⟩

/-- C3. Hash algorithm and stripping invariance: the hash of a record
with no surviving fields is the digest of the fixed sentinel; otherwise
it is the MD5 hex digest of the UTF-8 encoding of the sorted, joined
"key:value" content string; and inserting or removing a pair whose value
is None, whose value is empty or whitespace, or whose key carries the
metadata prefix never changes the hash. -/
theorem C3_hash_algorithm_and_stripping :
    (∀ d : Record, cleanData d = [] → generate_hash d = md5Hex (utf8Bytes "empty"))
    ∧ (∀ d : Record, cleanData d ≠ [] →
        generate_hash d = md5Hex (utf8Bytes (contentString (sortedItems (cleanData d)))))
    ∧ (∀ (pre post : Record) (k : String),
        generate_hash (pre ++ (k, none) :: post) = generate_hash (pre ++ post))
    ∧ (∀ (pre post : Record) (k s : String), pyStrip s = "" →
        generate_hash (pre ++ (k, some s) :: post) = generate_hash (pre ++ post))
    ∧ (∀ (pre post : Record) (k : String) (v : Value), pyStartsWith k "_" = true →
        generate_hash (pre ++ (k, v) :: post) = generate_hash (pre ++ post)) := by
  refine ⟨?_, ?_, ?_, ?_, ?_⟩
  · intro d h
    simp [generate_hash, h]
  · intro d h
    simp [generate_hash, h]
  · intro pre post k
    apply generate_hash_congr
    rw [cleanData_append, cleanData_append, cleanData_drop_none]
  · intro pre post k s hs
    apply generate_hash_congr
    rw [cleanData_append, cleanData_append, cleanData_drop_blank hs]
  · intro pre post k v hk
    apply generate_hash_congr
    rw [cleanData_append, cleanData_append, cleanData_drop_meta hk]

theorem C3_hash_algorithm_and_stripping_witness :
    pyStrip " " = ""
    ∧ generate_hash [("symbol", some "TEST"), ("price", some " ")]
        = generate_hash [("symbol", some "TEST")] :=
  ⟨by decide,
   C3_hash_algorithm_and_stripping.2.2.2.1 [("symbol", some "TEST")] [] "price" " "
     (by decide)⟩

/-- C4. Per-job classification: a record is reported new exactly when
its content hash is absent from the job's stored rows; after the
classify-then-store sequence, any record with the same content hash
(any field order or incidental metadata hashes identically) classifies
as duplicate for that job; and storing under one job does not change the
classification of the same record under a different job. -/
theorem C4_per_job_classification (db : Database) (jobId : Nat) (r : Record) :
    ((process_item db jobId r).1.is_new = true ↔ (jobId, generate_hash r) ∉ db.rows)
    ∧ (∀ r2 : Record, generate_hash r2 = generate_hash r →
        (process_item (store_and_mark db jobId (process_item db jobId r).1).2
          jobId r2).1.is_new = false)
    ∧ (∀ jobId2 : Nat, jobId2 ≠ jobId →
        (process_item (store_and_mark db jobId (process_item db jobId r).1).2
          jobId2 r).1.is_new = (process_item db jobId2 r).1.is_new) := by
  refine ⟨?_, ?_, ?_⟩
  · by_cases hm : (jobId, generate_hash r) ∈ db.rows
    · simp [process_item_is_new, hm]
    · simp [process_item_is_new, hm]
  · intro r2 h2
    by_cases hm : (jobId, generate_hash r) ∈ db.rows
    · have hd : (process_item db jobId r).1.is_new = false := by
        simp [process_item_is_new, hm]
      rw [store_and_mark_dup hd]
      simp [process_item_is_new, h2, hm]
    · rw [store_and_mark_of_new hm]
      simp [process_item_is_new, h2]
  · intro jobId2 hne
    by_cases hm : (jobId, generate_hash r) ∈ db.rows
    · have hd : (process_item db jobId r).1.is_new = false := by
        simp [process_item_is_new, hm]
      rw [store_and_mark_dup hd]
    · rw [store_and_mark_of_new hm]
      simp [process_item_is_new, List.mem_cons, Prod.mk.injEq, hne]

theorem C4_per_job_classification_witness :
    ((process_item ⟨[], 1⟩ 1 [("a", some "x")]).1.is_new = true
      ↔ ((1 : Nat), generate_hash [("a", some "x")]) ∉ ([] : List (Nat × String)))
    ∧ (process_item (store_and_mark ⟨[], 1⟩ 1
        (process_item ⟨[], 1⟩ 1 [("a", some "x")]).1).2 1 [("a", some "x")]).1.is_new
        = false
    ∧ (process_item (store_and_mark ⟨[], 1⟩ 1
        (process_item ⟨[], 1⟩ 1 [("a", some "x")]).1).2 2 [("a", some "x")]).1.is_new
        = (process_item ⟨[], 1⟩ 2 [("a", some "x")]).1.is_new :=
  ⟨(C4_per_job_classification ⟨[], 1⟩ 1 [("a", some "x")]).1,
   (C4_per_job_classification ⟨[], 1⟩ 1 [("a", some "x")]).2.1 _ rfl,
   (C4_per_job_classification ⟨[], 1⟩ 1 [("a", some "x")]).2.2 2 (by decide)⟩

/-- C5. Classification is side-effect free: process_item leaves the
stored rows untouched, and store_and_mark called with a duplicate result
returns -1 and writes nothing. -/
theorem C5_classification_side_effect_free (db : Database) (jobId : Nat) (r : Record) :
    (process_item db jobId r).2 = db
    ∧ ∀ res : DedupResult, res.is_new = false →
        store_and_mark db jobId res = (-1, db) :=
  ⟨rfl, fun _ h => store_and_mark_dup h⟩

theorem C5_classification_side_effect_free_witness :
    (process_item ⟨[], 1⟩ 7 [("a", some "x")]).2 = (⟨[], 1⟩ : Database)
    ∧ (⟨false, "h", false, []⟩ : DedupResult).is_new = false
    ∧ store_and_mark ⟨[], 1⟩ 7 ⟨false, "h", false, []⟩ = (-1, (⟨[], 1⟩ : Database)) :=
  ⟨(C5_classification_side_effect_free ⟨[], 1⟩ 7 [("a", some "x")]).1, rfl,
   (C5_classification_side_effect_free ⟨[], 1⟩ 7 [("a", some "x")]).2 _ rfl⟩

/-- C6. Zero-item DOM extraction is a hard failure: an empty extraction
result finalizes the run as failed with items_extracted = 0 and a
non-null error message, while a non-empty all-duplicate run (dedup
enabled, no raised exception) finalizes as success with zero new items
and every item counted as a duplicate. -/
theorem C6_zero_item_extraction_failure :
    (∀ (db : Database) (jobId : Nat) (cfg : JobConfig) (sendOk : Nat → Bool)
        (failAt : Option Nat),
      (execDomJob db jobId cfg [] sendOk failAt).2.status = "failed"
      ∧ (execDomJob db jobId cfg [] sendOk failAt).2.items_extracted = 0
      ∧ (execDomJob db jobId cfg [] sendOk failAt).2.error_message ≠ none)
    ∧ (∀ (db : Database) (jobId : Nat) (cfg : JobConfig) (items : List Record)
        (sendOk : Nat → Bool), items ≠ [] → cfg.enable_deduplication = true →
        (∀ r ∈ items, isSkippedItem r = false ∧ (jobId, generate_hash r) ∈ db.rows) →
        execDomJob db jobId cfg items sendOk none
          = (db, complete_execution_log "success" 1 items.length 0 items.length 0 none)) := by
  constructor
  · intro db jobId cfg sendOk failAt
    simp [execDomJob, complete_execution_log]
  · intro db jobId cfg items sendOk hne hded hall
    have hlen : ¬items.length = 0 := fun h0 => hne (List.length_eq_zero.mp h0)
    have hloop := domLoop_alldup jobId cfg sendOk hded items 0 db 0 0 0
      (fun r hr _ => (hall r hr).2)
    have hfilter : (items.filter fun r => !isSkippedItem r) = items :=
      List.filter_eq_self.mpr fun r hr => by simp [(hall r hr).1]
    rw [hfilter] at hloop
    simp [execDomJob, hlen, hloop, complete_execution_log]

theorem C6_zero_item_extraction_failure_witness :
    execDomJob ⟨[(1, generate_hash [("a", some "x")])], 2⟩ 1 ⟨true, false, none⟩
        [[("a", some "x")]] (fun _ => true) none
      = (⟨[(1, generate_hash [("a", some "x")])], 2⟩,
         complete_execution_log "success" 1 1 0 1 0 none) :=
  C6_zero_item_extraction_failure.2 ⟨[(1, generate_hash [("a", some "x")])], 2⟩ 1
    ⟨true, false, none⟩ [[("a", some "x")]] (fun _ => true) (by decide) rfl (by decide)

/-- C7, counterexample. A DOM run over two items that raises while
processing the second has already stored the first item as new (the loop
exits carrying new = 1 and the committed row), yet the finalized log
reports items_new = 0: the partial counts are not preserved on the error
path, contrary to the claim. -/
theorem C7_partial_counts_counterexample :
    domProcessLoop 1 ⟨true, false, none⟩ (fun _ => true) (some 1)
        [[("a", some "x")], [("b", some "y")]] 0 ⟨[], 1⟩ 0 0 0
      = .error ("processing error", ⟨[(1, generate_hash [("a", some "x")])], 2⟩, 1, 0, 0)
    ∧ (execDomJob ⟨[], 1⟩ 1 ⟨true, false, none⟩ [[("a", some "x")], [("b", some "y")]]
        (fun _ => true) (some 1)).2.items_new = 0
    ∧ (execDomJob ⟨[], 1⟩ 1 ⟨true, false, none⟩ [[("a", some "x")], [("b", some "y")]]
        (fun _ => true) (some 1)).2.status = "failed" := by
  refine ⟨rfl, by decide, by decide⟩

/-- C7, amended. On every failed DOM run the finalized log carries the
Python defaults — all counts zero — and a non-null error message: the
generic except handler passes only the status and the error text to
complete_execution_log, so counts accumulated before the failure are
dropped. -/
theorem C7_partial_counts_amended (db : Database) (jobId : Nat) (cfg : JobConfig)
    (items : List Record) (sendOk : Nat → Bool) (failAt : Option Nat)
    (h : (execDomJob db jobId cfg items sendOk failAt).2.status = "failed") :
    (execDomJob db jobId cfg items sendOk failAt).2.items_extracted = 0
    ∧ (execDomJob db jobId cfg items sendOk failAt).2.items_new = 0
    ∧ (execDomJob db jobId cfg items sendOk failAt).2.items_duplicate = 0
    ∧ (execDomJob db jobId cfg items sendOk failAt).2.items_sent = 0
    ∧ (execDomJob db jobId cfg items sendOk failAt).2.error_message ≠ none :=
  execDomJob_failed_shape db jobId cfg items sendOk failAt h

theorem C7_partial_counts_amended_witness :
    (execDomJob ⟨[], 1⟩ 1 ⟨true, false, none⟩ [[("a", some "x")], [("b", some "y")]]
        (fun _ => true) (some 1)).2.status = "failed"
    ∧ (execDomJob ⟨[], 1⟩ 1 ⟨true, false, none⟩ [[("a", some "x")], [("b", some "y")]]
        (fun _ => true) (some 1)).2.items_new = 0 :=
  ⟨by decide,
   (C7_partial_counts_amended ⟨[], 1⟩ 1 ⟨true, false, none⟩
     [[("a", some "x")], [("b", some "y")]] (fun _ => true) (some 1) (by decide)).2.1⟩

/-- C8, counterexample. Replacement is sequential, not single-pass: with
data mapping a to the literal placeholder of b and b to X, the template
consisting of a's placeholder renders to X — the placeholder introduced
by the first substitution is expanded by the later one, contrary to the
claim's no-recursive-expansion reading under which the output would be
b's literal placeholder. -/
theorem C8_template_counterexample :
    format_message [("a", "\x7bb\x7d"), ("b", "X")] "\x7ba\x7d" = "X"
    ∧ format_message [("a", "\x7bb\x7d"), ("b", "X")] "\x7ba\x7d" ≠ "\x7bb\x7d" :=
  ⟨by decide, by decide⟩

/-- C8, amended. Placeholders are replaced by literal, case-sensitive
string replacement applied sequentially per field in record order (so a
substituted value containing a later field's placeholder is itself
expanded); a template none of whose placeholders match a data field is
returned verbatim, never failing; and the spec's example renders as
stated. -/
theorem C8_template_amended :
    format_message [("symbol", "AAPL"), ("price", "175.50")]
        "Stock: \x7bsymbol\x7d @ \x7bprice\x7d" = "Stock: AAPL @ 175.50"
    ∧ ∀ (data : List (String × String)) (template : String),
        (∀ kv ∈ data, strContains template ("\x7b" ++ kv.1 ++ "\x7d") = false) →
        format_message data template = template := by
  refine ⟨by decide, ?_⟩
  intro data template
  induction data with
  | nil => intro _; rfl
  | cons kv rest ih =>
    intro h
    have hk := h kv (List.mem_cons_self _ _)
    have hstep : (if pyStartsWith kv.1 "_" then template
        else if strContains template ("\x7b" ++ kv.1 ++ "\x7d") then
          strReplace template ("\x7b" ++ kv.1 ++ "\x7d") kv.2
        else template) = template := by
      by_cases hp : pyStartsWith kv.1 "_" = true
      · simp [hp]
      · simp [hp, hk]
    rw [format_message_cons, hstep]
    exact ih fun kv2 hm => h kv2 (List.mem_cons_of_mem _ hm)

theorem C8_template_amended_witness :
    format_message [("symbol", "AAPL")] "plain text" = "plain text" :=
  C8_template_amended.2 [("symbol", "AAPL")] "plain text" (by decide)

/-- C9, counterexample. The cleanup function returns every string
shorter than 10 characters unchanged, so the six-character input ABCABC
is not collapsed to ABC as the claim's first example requires. -/
theorem C9_text_dedup_counterexample :
    deduplicate_text "ABCABC" = "ABCABC" ∧ deduplicate_text "ABCABC" ≠ "ABC" :=
  ⟨by decide, by decide⟩

/-- C9, amended. Strings shorter than 10 characters are always returned
unchanged (hence ABCABC, ABC and ABCDEF are all unchanged), and for
inputs long enough to pass the guard an exact two-identical-halves
string such as ABCDEFABCDEF collapses to one half. -/
theorem C9_text_dedup_amended :
    (∀ s : String, s.length < 10 → deduplicate_text s = s)
    ∧ deduplicate_text "ABC" = "ABC"
    ∧ deduplicate_text "ABCDEF" = "ABCDEF"
    ∧ deduplicate_text "ABCDEFABCDEF" = "ABCDEF" := by
  refine ⟨?_, by decide, by decide, by decide⟩
  intro s h
  unfold deduplicate_text
  rw [if_pos (Or.inr h)]

theorem C9_text_dedup_amended_witness :
    ("ABCABC" : String).length < 10 ∧ deduplicate_text "ABCABC" = "ABCABC" :=
  ⟨by decide, C9_text_dedup_amended.1 "ABCABC" (by decide)⟩

/-- C10. Bounded extraction loops: for every similarity and button
oracle outcome the scroll loop collects at most max_scrolls items (one
per iteration entered) and the pagination loop at most max_pages, and an
error inside the image comparison is reported as not similar. -/
theorem C10_bounded_extraction_loops (maxScrolls maxPages : Nat)
    (simAtS btnFound simAtP : Nat → Bool) :
    scroll_and_extract_count maxScrolls simAtS ≤ maxScrolls
    ∧ paginate_and_extract_count maxPages btnFound simAtP ≤ maxPages
    ∧ ∀ e : String, imagesSimilarResult (Except.error e) = false := by
  refine ⟨?_, ?_, fun _ => rfl⟩
  · have h := scrollLoop_le simAtS maxScrolls 0 0 0 false
    simpa [scroll_and_extract_count] using h
  · have h := pageLoop_le btnFound simAtP maxPages 1 0 0
    simpa [paginate_and_extract_count] using h

end Automation

